import Mathlib

/-!
Verification development for the indy-did-resolver core (`src/indy-didresolver/src/resolver.rs`).

The resolver pipeline is embedded shallowly: the pure translation functions
(`build_request`, `parse_or_now`, `parse_ledger_data`) become Lean functions, and
the orchestrator (`_resolve`, `resolve`, `dereference`, `fetch_legacy_endpoint`)
is embedded as a function threading a ghost log of the requests submitted to the
external execution service.  External collaborators (chrono, serde_json, the
indy-vdr request builder and pool, and the repository modules `did.rs`,
`error.rs`, `did_document.rs`, `responses.rs` that are not under `src/`) are
modelled as an explicit environment, following the spec's contracts for them.
Rust computations that can panic (`unwrap()`) are given a three-valued outcome
type distinguishing a returned error from a panic.
-/

namespace IndyDid

/-- Modelled from the spec: the closed error taxonomy of `error.rs` (not under
`src/`).  Variant names follow the usages visible in `resolver.rs` and its tests
(`EmptyData`, `VdrError`, `DateTimeError`), with `SerdeJsonError` for serde
decode failures and `MalformedIdentifier` for DID-URL parse failures.  The
spec's taxonomy addresses `DateTimeError` as `MalformedTimestamp` and
`SerdeJsonError` as `DecodeFailure`. -/
inductive DidIndyError where
  | EmptyData
  | VdrError
  | DateTimeError
  | SerdeJsonError
  | MalformedIdentifier
deriving DecidableEq, Repr

/-- Outcome of a Rust computation: a normal return, a returned error
(`Result::Err`), or a panic (such as `unwrap()` on a failed value). -/
inductive ROutcome (α : Type) where
  | ok (a : α)
  | err (e : DidIndyError)
  | panicked
deriving DecidableEq, Repr

/-- Whether an outcome is a returned error value. -/
def ROutcome.isErr {α : Type} : ROutcome α → Bool
  | .err _ => true
  | _ => false

/-- serde_json's `Value`, with numbers restricted to the integers (integral
timestamps and sequence numbers are the only numbers the resolver inspects). -/
inductive Value where
  | null
  | bool (b : Bool)
  | num (n : Int)
  | str (s : String)
  | arr (elems : List Value)
  | obj (fields : List (String × Value))

/-- serde_json square-bracket indexing `v[key]`: field lookup on objects,
`Null` on a missing key or on a non-object. -/
def Value.index (v : Value) (key : String) : Value :=
  match v with
  | .obj fields =>
    match fields.lookup key with
    | some x => x
    | none => .null
  | _ => .null

/-- The `*data == Value::Null` test of `parse_ledger_data`. -/
def Value.isNull : Value → Bool
  | .null => true
  | _ => false

/-- serde_json `as_str`: the string when the value is a JSON string. -/
def Value.asStr : Value → Option String
  | .str s => some s
  | _ => none

/-- Modelled from the spec: the query parameter kinds of `did.rs`
(not under `src/`). -/
inductive QueryParameter where
  | VersionId
  | VersionTime
  | From
  | To
deriving DecidableEq, Repr

/-- Modelled from the spec: the schema path object of `did.rs`. -/
structure SchemaObj where
  name : String
  version : String
deriving DecidableEq, Repr

/-- Modelled from the spec: the claim-definition path object of `did.rs`. -/
structure ClaimDefObj where
  schema_seq_no : Nat
  name : String
deriving DecidableEq, Repr

/-- Modelled from the spec: the revocation-registry path object of `did.rs`
(the `RevRegDef`, `RevRegEntry` and `RevRegDelta` variants carry the same three
fields per the spec's data model). -/
structure RevRegObj where
  schema_seq_no : Nat
  claim_def_name : String
  tag : String
deriving DecidableEq, Repr

/-- Modelled from the spec: the closed `LedgerObject` sum of `did.rs`. -/
inductive LedgerObject where
  | Schema (s : SchemaObj)
  | ClaimDef (c : ClaimDefObj)
  | RevRegDef (r : RevRegObj)
  | RevRegEntry (r : RevRegObj)
  | RevRegDelta (r : RevRegObj)
deriving DecidableEq, Repr

/-- Modelled from the spec: a parsed DID URL (`did.rs`, not under `src/`):
namespace, subject id, optional ledger-object path (already parsed into its
kind, per the spec's Identifier model) and the query mapping.  The `namespace`
field is spelled `nameSpace` because `namespace` is a Lean keyword. -/
structure DidUrl where
  nameSpace : String
  id : String
  path : Option LedgerObject
  query : QueryParameter → Option String

/-- Modelled from the spec: the decoded NYM record of `responses.rs`
(not under `src/`): destination identifier, verification key and optional
embedded document content. -/
structure GetNymResultV1 where
  dest : String
  verkey : String
  diddoc_content : Option Value

/-- Modelled from the spec: the legacy service-endpoint value of
`responses.rs` (not under `src/`). -/
structure Endpoint where
  endpoint : Value

/-- Modelled from the spec: the identity-document value object of
`did_document.rs` (not under `src/`), built from namespace, subject id,
verification key, the optional legacy endpoint and optional extra content. -/
structure DidDocument where
  nameSpace : String
  dest : String
  verkey : String
  endpoint : Option Endpoint
  extra : Option Value

/-- Modelled from the spec: `DidDocument::new`; construction never fails. -/
def DidDocument.new (nameSpace dest verkey : String) (endpoint : Option Endpoint)
    (extra : Option Value) : DidDocument :=
  ⟨nameSpace, dest, verkey, endpoint, extra⟩

/-- Modelled from the spec: the document serializer `DidDocument::to_value`,
a plain value rendering of the synthesized document. -/
def DidDocument.to_value (doc : DidDocument) : Value :=
  .obj [("id", .str ("did:indy:" ++ doc.nameSpace ++ ":" ++ doc.dest)),
        ("verificationMethod", .arr [.obj [("publicKeyBase58", .str doc.verkey)]]),
        ("service",
          match doc.endpoint with
          | none => .null
          | some e => .obj [("serviceEndpoint", e.endpoint)])]

/-- Modelled from the spec: the well-known legacy service-endpoint attribute
name of `did_document.rs` (not under `src/`). -/
def LEGACY_INDY_SERVICE : String := "service"

/-- Ledger transaction-type constant of the external `indy_vdr` crate
(`constants::GET_ATTR`), with its Indy Node value. -/
def GET_ATTR : String := "104"

/-- Transaction type constant `constants::GET_NYM`. -/
def GET_NYM : String := "105"

/-- Transaction type constant `constants::GET_SCHEMA`. -/
def GET_SCHEMA : String := "107"

/-- Transaction type constant `constants::GET_CRED_DEF`. -/
def GET_CRED_DEF : String := "108"

/-- Transaction type constant `constants::GET_REVOC_REG_DEF`. -/
def GET_REVOC_REG_DEF : String := "115"

/-- Transaction type constant `constants::GET_REVOC_REG`. -/
def GET_REVOC_REG : String := "116"

/-- Transaction type constant `constants::GET_REVOC_REG_DELTA`. -/
def GET_REVOC_REG_DELTA : String := "117"

/-- The prepared ledger request: the request kind together with the data the
resolver supplies to the external request-builder constructor of that kind. -/
inductive PreparedRequest where
  | getNym (dest : String)
  | getSchema (dest : String) (name : String) (version : String)
  | getCredDef (id : String)
  | getRevocRegDef (id : String)
  | getRevocReg (id : String) (timestamp : Int)
  | getRevocRegDelta (id : String) (lower : Option Int) (upper : Int)
  | getAttrib (dest : String) (raw : String)
deriving DecidableEq, Repr

/-- `PreparedRequest::txn_type`, the transaction-type tag the orchestrator
dispatches on. -/
def PreparedRequest.txn_type : PreparedRequest → String
  | .getNym _ => GET_NYM
  | .getSchema _ _ _ => GET_SCHEMA
  | .getCredDef _ => GET_CRED_DEF
  | .getRevocRegDef _ => GET_REVOC_REG_DEF
  | .getRevocReg _ _ => GET_REVOC_REG
  | .getRevocRegDelta _ _ _ => GET_REVOC_REG_DELTA
  | .getAttrib _ _ => GET_ATTR

/-- The external collaborators of the resolver, modelled as an environment:
the chrono RFC-3339 parser composed with `timestamp()` (string to epoch
seconds, `none` on a parse failure), the current time `Utc::now().timestamp()`,
serde_json parsing of a raw reply, the typed serde decoders for the NYM record
and the legacy endpoint, the pool execution service (`perform_ledger_request`
wrapped by `handle_request`), the identifier validators of `indy_vdr`
(whether `CredentialDefinitionId::from_str` / `RevocationRegistryId::from_str`
accepts a composite identifier) and the DID-URL parser of `did.rs`. -/
structure Env where
  rfc3339 : String → Option Int
  now : Int
  jsonParse : String → Option Value
  decodeNym : String → Option GetNymResultV1
  decodeEndpoint : String → Option Endpoint
  exec : PreparedRequest → Except Unit String
  validCredDefId : String → Bool
  validRevRegId : String → Bool
  parseDidUrl : String → Except DidIndyError DidUrl

/-- The composite credential-definition identifier
`<did>:3:CL:<schema_seq_no>:<name>` assembled by `build_request`. -/
def credDefId (did : String) (c : ClaimDefObj) : String :=
  did ++ ":3:CL:" ++ toString c.schema_seq_no ++ ":" ++ c.name

/-- The composite revocation-registry identifier
`<did>:4:<did>:3:CL:<schema_seq_no>:<claim_def_name>:CL_ACCUM:<tag>`
assembled by `build_request`. -/
def revRegId (did : String) (r : RevRegObj) : String :=
  did ++ ":4:" ++ did ++ ":3:CL:" ++ toString r.schema_seq_no ++ ":" ++
    r.claim_def_name ++ ":CL_ACCUM:" ++ r.tag

/-- `parse_or_now` (resolver.rs 288-296): parse a present value as RFC-3339
(a failure is the timestamp error the spec calls `MalformedTimestamp`),
default an absent value to the current time. -/
def parse_or_now (env : Env) (datetime : Option String) : Except DidIndyError Int :=
  match datetime with
  | some dt =>
    match env.rfc3339 dt with
    | some t => .ok t
    | none => .error .DateTimeError
  | none => .ok env.now

/-- `parse_ledger_data` (resolver.rs 278-286): parse the raw reply as JSON,
extract `result.data`, fail with `EmptyData` when it is JSON null. -/
def parse_ledger_data (env : Env) (ledger_data : String) : Except DidIndyError Value :=
  match env.jsonParse ledger_data with
  | none => .error .SerdeJsonError
  | some v =>
    if ((v.index "result").index "data").isNull then .error .EmptyData
    else .ok ((v.index "result").index "data")

/-- `build_request` (resolver.rs 158-258).  The external builder constructors
are modelled as the total `PreparedRequest` constructors; `.unwrap()` on a
composite identifier rejected by its validator is the `panicked` outcome.
In the no-path branch the source also computes unused `_seq_no` and
`_timestamp` bindings (a documented gap), which cannot fail and are omitted. -/
def build_request (env : Env) (did : DidUrl) : ROutcome PreparedRequest :=
  match did.path with
  | none => .ok (.getNym did.id)
  | some lobj =>
    match lobj with
    | .Schema s => .ok (.getSchema did.id s.name s.version)
    | .ClaimDef c =>
      if env.validCredDefId (credDefId did.id c) then .ok (.getCredDef (credDefId did.id c))
      else .panicked
    | .RevRegDef r =>
      if env.validRevRegId (revRegId did.id r) then .ok (.getRevocRegDef (revRegId did.id r))
      else .panicked
    | .RevRegEntry r =>
      match parse_or_now env (did.query .VersionTime) with
      | .error e => .err e
      | .ok timestamp =>
        if env.validRevRegId (revRegId did.id r) then
          .ok (.getRevocReg (revRegId did.id r) timestamp)
        else .panicked
    | .RevRegDelta r =>
      let lower : Option Int :=
        if (did.query .From).isSome then (did.query .From).bind env.rfc3339
        else none
      match parse_or_now env (did.query .To) with
      | .error e => .err e
      | .ok upper =>
        if env.validRevRegId (revRegId did.id r) then
          .ok (.getRevocRegDelta (revRegId did.id r) lower upper)
        else .panicked

/-- The `Result` enum of resolver.rs 22-27: either a synthesized DID document
or opaque passthrough content. -/
inductive Result where
  | DidDocument (doc : DidDocument)
  | Content (v : Value)

/-- `ContentMetadata` (resolver.rs 30-34): the full raw reply as JSON together
with the object-type tag. -/
structure ContentMetadata where
  node_response : Value
  object_type : String

/-- `ResolutionResult` (resolver.rs 36-42). -/
structure ResolutionResult where
  did_resolution_metadata : Option String
  did_document : Option Value
  did_document_metadata : Option ContentMetadata

/-- `DereferencingResult` (resolver.rs 44-50). -/
structure DereferencingResult where
  dereferencing_metadata : Option String
  content_stream : Option Value
  content_metadata : Option ContentMetadata

/-- A resolver computation instrumented with a ghost log of the requests
submitted to the execution service; the log survives returned errors and
panics, so the number of round trips is observable on every outcome. -/
def RM (α : Type) : Type := List PreparedRequest → ROutcome α × List PreparedRequest

/-- `handle_request` (resolver.rs 260-269): one execution-service round trip;
a ledger-level failure is logged and wrapped as `VdrError`.  The request is
appended to the ghost call log. -/
def handle_request (env : Env) (request : PreparedRequest) : RM String := fun log =>
  (match env.exec request with
   | .ok data => .ok data
   | .error _ => .err .VdrError,
   log ++ [request])

/-- Rust `Result::ok()` at the legacy-fallback call site (resolver.rs 109):
a returned error is discarded to `none`; a panic still propagates. -/
def resultOk {α : Type} :
    ROutcome α × List PreparedRequest → ROutcome (Option α) × List PreparedRequest
  | (.ok a, l) => (.ok (some a), l)
  | (.err _, l) => (.ok none, l)
  | (.panicked, l) => (.panicked, l)

/-- The metadata-attachment tail of `_resolve` (resolver.rs 132-139): reparse
the full raw reply (an `unwrap`, hence a panic on failure) and pair it with the
object-type tag. -/
def attachMeta (env : Env) (ledger_data : String) :
    ROutcome (Result × String) × List PreparedRequest →
    ROutcome (Result × ContentMetadata) × List PreparedRequest
  | (.ok (result, object_type), l) =>
    (match env.jsonParse ledger_data with
     | none => .panicked
     | some v => .ok (result, ⟨v, object_type⟩), l)
  | (.err e, l) => (.err e, l)
  | (.panicked, l) => (.panicked, l)

/-- `Resolver::fetch_legacy_endpoint` (resolver.rs 142-155): one get-attribute
round trip for the well-known legacy endpoint attribute, decode of its payload;
`endpoint_data.as_str().unwrap()` panics when the payload is not a JSON
string. -/
def fetch_legacy_endpoint (env : Env) (did : String) : RM Endpoint := fun log =>
  match handle_request env (.getAttrib did LEGACY_INDY_SERVICE) log with
  | (.err e, l) => (.err e, l)
  | (.panicked, l) => (.panicked, l)
  | (.ok ledger_data, l) =>
    match parse_ledger_data env ledger_data with
    | .error e => (.err e, l)
    | .ok endpoint_data =>
      match endpoint_data.asStr with
      | none => (.panicked, l)
      | some s =>
        match env.decodeEndpoint s with
        | none => (.err .SerdeJsonError, l)
        | some ep => (.ok ep, l)

/-- `Resolver::_resolve` (resolver.rs 94-140): parse the DID URL, build and
execute the primary request, decode the payload, dispatch on the transaction
type (with the legacy-endpoint fallback for NYM records lacking
`diddoc_content`), then attach `ContentMetadata` carrying the full raw reply.
`data.as_str().unwrap()` on the NYM payload is a panic when the payload is not
a JSON string. -/
def _resolve (env : Env) (did : String) : RM (Result × ContentMetadata) := fun log =>
  match env.parseDidUrl did with
  | .error e => (.err e, log)
  | .ok did_url =>
    match build_request env did_url with
    | .err e => (.err e, log)
    | .panicked => (.panicked, log)
    | .ok request =>
      match handle_request env request log with
      | (.err e, log1) => (.err e, log1)
      | (.panicked, log1) => (.panicked, log1)
      | (.ok ledger_data, log1) =>
        match parse_ledger_data env ledger_data with
        | .error e => (.err e, log1)
        | .ok data =>
          attachMeta env ledger_data
            (if request.txn_type = GET_NYM then
              match data.asStr with
              | none => (.panicked, log1)
              | some s =>
                match env.decodeNym s with
                | none => (.err .SerdeJsonError, log1)
                | some get_nym_result =>
                  match (if get_nym_result.diddoc_content.isNone then
                           resultOk (fetch_legacy_endpoint env did_url.id log1)
                         else (.ok none, log1)) with
                  | (.ok endpoint, l) =>
                    (.ok (.DidDocument (DidDocument.new did_url.nameSpace
                            get_nym_result.dest get_nym_result.verkey endpoint none),
                          "NYM"), l)
                  | (.err e, l) => (.err e, l)
                  | (.panicked, l) => (.panicked, l)
            else if request.txn_type = GET_CRED_DEF then
              (.ok (.Content data, "CRED_DEF"), log1)
            else if request.txn_type = GET_SCHEMA then
              (.ok (.Content data, "SCHEMA"), log1)
            else if request.txn_type = GET_REVOC_REG_DEF then
              (.ok (.Content data, "REVOC_REG_DEF"), log1)
            else if request.txn_type = GET_REVOC_REG_DELTA then
              (.ok (.Content data, "REVOC_REG_DELTA"), log1)
            else
              (.ok (.Content data, "UNKOWN"), log1))

/-- `Resolver::resolve` (resolver.rs 78-92): run the shared pipeline and wrap a
synthesized document (serialized by `to_value`) as the `didDocument` field of a
`ResolutionResult`; a passthrough-content outcome leaves the field `none`.
The source finally renders the envelope with `serde_json::to_string_pretty`
(external serialization); the embedding returns the envelope itself. -/
def resolve (env : Env) (did : String) : RM ResolutionResult := fun log =>
  match _resolve env did log with
  | (.err e, l) => (.err e, l)
  | (.panicked, l) => (.panicked, l)
  | (.ok (data, metadata), l) =>
    (.ok { did_resolution_metadata := none,
           did_document :=
             match data with
             | .DidDocument doc => some doc.to_value
             | _ => none,
           did_document_metadata := some metadata }, l)

/-- `Resolver::dereference` (resolver.rs 61-76): run the shared pipeline and
wrap opaque content as the `contentStream` field of a `DereferencingResult`;
a DID-document outcome leaves the field `none`.  As with `resolve`, the final
pretty-printing step is external serialization and the embedding returns the
envelope itself. -/
def dereference (env : Env) (did : String) : RM DereferencingResult := fun log =>
  match _resolve env did log with
  | (.err e, l) => (.err e, l)
  | (.panicked, l) => (.panicked, l)
  | (.ok (data, metadata), l) =>
    (.ok { dereferencing_metadata := none,
           content_stream :=
             match data with
             | .Content c => some c
             | _ => none,
           content_metadata := some metadata }, l)

/-- Decimal digit value of a character. -/
def digitVal (c : Char) : Option Nat :=
  if c.isDigit then some (c.toNat - 48) else none

/-- Two decimal digits as a number. -/
def nat2 (a b : Char) : Option Nat := do
  let x ← digitVal a
  let y ← digitVal b
  pure (10 * x + y)

/-- Four decimal digits as a number. -/
def nat4 (a b c d : Char) : Option Nat := do
  let x ← nat2 a b
  let y ← nat2 c d
  pure (100 * x + y)

/-- Modelled from the spec: days from 1970-01-01 of a civil date, by the
standard days-from-civil algorithm; used to model the external chrono crate's
RFC-3339 parsing as epoch seconds. -/
def daysFromCivil (y : Int) (m d : Nat) : Int :=
  let yAdj : Int := if m ≤ 2 then y - 1 else y
  let era : Int := Int.fdiv yAdj 400
  let yoe : Int := yAdj - era * 400
  let mp : Nat := if m > 2 then m - 3 else m + 9
  let doy : Int := Int.ofNat ((153 * mp + 2) / 5 + d - 1)
  let doe : Int := yoe * 365 + Int.fdiv yoe 4 - Int.fdiv yoe 100 + doy
  era * 146097 + doe - 719468

/-- Modelled from the spec: RFC-3339 parsing to epoch seconds (the external
chrono crate's `DateTime::parse_from_rfc3339` composed with `timestamp()`),
restricted to the `YYYY-MM-DDTHH:MM:SSZ` form with coarse range checks
(month 1-12, day 1-31); used to instantiate `Env.rfc3339` on concrete
inputs. -/
def rfc3339ToEpoch (s : String) : Option Int :=
  match s.toList with
  | [y1, y2, y3, y4, '-', m1, m2, '-', d1, d2, 'T',
     h1, h2, ':', mi1, mi2, ':', s1, s2, 'Z'] => do
    let y ← nat4 y1 y2 y3 y4
    let mo ← nat2 m1 m2
    let da ← nat2 d1 d2
    let h ← nat2 h1 h2
    let mi ← nat2 mi1 mi2
    let se ← nat2 s1 s2
    if 1 ≤ mo ∧ mo ≤ 12 ∧ 1 ≤ da ∧ da ≤ 31 ∧ h ≤ 23 ∧ mi ≤ 59 ∧ se ≤ 59 then
      pure (daysFromCivil (Int.ofNat y) mo da * 86400 + Int.ofNat (h * 3600 + mi * 60 + se))
    else none
  | _ => none

theorem build_request_nym (env : Env) (u : DidUrl) (h : u.path = none) :
    build_request env u = .ok (.getNym u.id) := by
  unfold build_request
  rw [h]

theorem attachMeta_snd (env : Env) (ld : String)
    (x : ROutcome (Result × String) × List PreparedRequest) :
    (attachMeta env ld x).2 = x.2 := by
  rcases x with ⟨o, l⟩
  cases o with
  | ok a => rcases a with ⟨r, t⟩; rfl
  | err e => rfl
  | panicked => rfl

theorem resultOk_snd {α : Type} (x : ROutcome α × List PreparedRequest) :
    (resultOk x).2 = x.2 := by
  rcases x with ⟨o, l⟩
  cases o <;> rfl

theorem resolve_snd (env : Env) (did : String) (log : List PreparedRequest) :
    (resolve env did log).2 = (_resolve env did log).2 := by
  unfold resolve
  rcases _resolve env did log with ⟨o, l⟩
  cases o with
  | ok a => rcases a with ⟨x, y⟩; rfl
  | err e => rfl
  | panicked => rfl

theorem dereference_snd (env : Env) (did : String) (log : List PreparedRequest) :
    (dereference env did log).2 = (_resolve env did log).2 := by
  unfold dereference
  rcases _resolve env did log with ⟨o, l⟩
  cases o with
  | ok a => rcases a with ⟨x, y⟩; rfl
  | err e => rfl
  | panicked => rfl

theorem fetch_legacy_endpoint_log (env : Env) (d : String) (log : List PreparedRequest) :
    (fetch_legacy_endpoint env d log).2 = log ++ [.getAttrib d LEGACY_INDY_SERVICE] := by
  unfold fetch_legacy_endpoint handle_request
  cases env.exec (.getAttrib d LEGACY_INDY_SERVICE) with
  | error e => rfl
  | ok data =>
    dsimp only
    cases parse_ledger_data env data with
    | error e => rfl
    | ok pd =>
      dsimp only
      cases pd.asStr with
      | none => rfl
      | some s =>
        dsimp only
        cases env.decodeEndpoint s with
        | none => rfl
        | some ep => rfl

/-- When the legacy round trip fails in one of the returned-error ways
(transport failure, unparseable reply, null `result.data`, or a string payload
failing endpoint decode), `fetch_legacy_endpoint` returns an error outcome. -/
theorem fetch_legacy_endpoint_err (env : Env) (d : String) (log : List PreparedRequest)
    (hD : env.exec (.getAttrib d LEGACY_INDY_SERVICE) = .error ()
        ∨ (∃ r2, env.exec (.getAttrib d LEGACY_INDY_SERVICE) = .ok r2
            ∧ env.jsonParse r2 = none)
        ∨ (∃ r2 v2, env.exec (.getAttrib d LEGACY_INDY_SERVICE) = .ok r2
            ∧ env.jsonParse r2 = some v2 ∧ (v2.index "result").index "data" = .null)
        ∨ (∃ r2 v2 es, env.exec (.getAttrib d LEGACY_INDY_SERVICE) = .ok r2
            ∧ env.jsonParse r2 = some v2 ∧ (v2.index "result").index "data" = .str es
            ∧ env.decodeEndpoint es = none)) :
    ∃ er, (fetch_legacy_endpoint env d log).1 = .err er := by
  unfold fetch_legacy_endpoint handle_request
  rcases hD with hx | ⟨r2, hx, hj⟩ | ⟨r2, v2, hx, hj, hdata⟩ | ⟨r2, v2, es, hx, hj, hdata, hdec⟩
  · exact ⟨.VdrError, by simp [hx]⟩
  · exact ⟨.SerdeJsonError, by simp [hx, parse_ledger_data, hj]⟩
  · exact ⟨.EmptyData, by simp [hx, parse_ledger_data, hj, hdata, Value.isNull]⟩
  · exact ⟨.SerdeJsonError, by
      simp [hx, parse_ledger_data, hj, hdata, Value.isNull, Value.asStr, hdec]⟩

/-- Reduction of `_resolve` along a successful get-nym primary round trip, up
to the legacy-fallback decision. -/
theorem _resolve_nym (env : Env) (did : String) (u : DidUrl) (reply : String)
    (v : Value) (ds : String) (nym : GetNymResultV1) (log : List PreparedRequest)
    (h1 : env.parseDidUrl did = .ok u)
    (h2 : u.path = none)
    (h3 : env.exec (.getNym u.id) = .ok reply)
    (h4 : env.jsonParse reply = some v)
    (h5 : (v.index "result").index "data" = .str ds)
    (h6 : env.decodeNym ds = some nym) :
    _resolve env did log =
      attachMeta env reply
        (match (if nym.diddoc_content.isNone then
                  resultOk (fetch_legacy_endpoint env u.id (log ++ [.getNym u.id]))
                else (.ok none, log ++ [.getNym u.id])) with
         | (.ok endpoint, l) =>
           (.ok (.DidDocument (DidDocument.new u.nameSpace nym.dest nym.verkey endpoint none),
                 "NYM"), l)
         | (.err e, l) => (.err e, l)
         | (.panicked, l) => (.panicked, l)) := by
  have hp : parse_ledger_data env reply = .ok (.str ds) := by
    unfold parse_ledger_data
    rw [h4]
    simp [h5, Value.isNull]
  unfold _resolve handle_request
  rw [h1]
  dsimp only
  rw [build_request_nym env u h2]
  dsimp only
  rw [h3]
  dsimp only
  rw [hp]
  dsimp only
  simp only [PreparedRequest.txn_type, Value.asStr, h6]
  simp

/-- A NYM record carrying `diddoc_content` triggers no legacy fetch: one round
trip, the synthesized document has no endpoint only when the fallback would
have added one (here the endpoint slot is `none` because the fetch is
skipped). -/
theorem _resolve_nym_present (env : Env) (did : String) (u : DidUrl) (reply : String)
    (v : Value) (ds : String) (nym : GetNymResultV1) (c : Value) (log : List PreparedRequest)
    (h1 : env.parseDidUrl did = .ok u)
    (h2 : u.path = none)
    (h3 : env.exec (.getNym u.id) = .ok reply)
    (h4 : env.jsonParse reply = some v)
    (h5 : (v.index "result").index "data" = .str ds)
    (h6 : env.decodeNym ds = some nym)
    (h7 : nym.diddoc_content = some c) :
    _resolve env did log =
      (.ok (.DidDocument (DidDocument.new u.nameSpace nym.dest nym.verkey none none),
            ⟨v, "NYM"⟩), log ++ [.getNym u.id]) := by
  rw [_resolve_nym env did u reply v ds nym log h1 h2 h3 h4 h5 h6]
  simp [h7, attachMeta, h4]

/-- A NYM record lacking `diddoc_content` triggers exactly the one extra
get-attribute round trip, whatever its outcome: the ghost log always extends by
the get-nym and then the get-attribute request. -/
theorem _resolve_nym_absent_log (env : Env) (did : String) (u : DidUrl) (reply : String)
    (v : Value) (ds : String) (nym : GetNymResultV1) (log : List PreparedRequest)
    (h1 : env.parseDidUrl did = .ok u)
    (h2 : u.path = none)
    (h3 : env.exec (.getNym u.id) = .ok reply)
    (h4 : env.jsonParse reply = some v)
    (h5 : (v.index "result").index "data" = .str ds)
    (h6 : env.decodeNym ds = some nym)
    (h7 : nym.diddoc_content = none) :
    (_resolve env did log).2 = log ++ [.getNym u.id, .getAttrib u.id LEGACY_INDY_SERVICE] := by
  rw [_resolve_nym env did u reply v ds nym log h1 h2 h3 h4 h5 h6, attachMeta_snd]
  have hlog := fetch_legacy_endpoint_log env u.id (log ++ [.getNym u.id])
  rcases hfl : fetch_legacy_endpoint env u.id (log ++ [.getNym u.id]) with ⟨o, l2⟩
  rw [hfl] at hlog
  cases o <;> simp [h7, resultOk, hfl, hlog]

/-- A NYM record lacking `diddoc_content` whose legacy fetch fails with a
returned error still resolves: the error is swallowed and the document is
synthesized without an endpoint. -/
theorem _resolve_nym_absent_fetch_err (env : Env) (did : String) (u : DidUrl)
    (reply : String) (v : Value) (ds : String) (nym : GetNymResultV1)
    (log : List PreparedRequest)
    (h1 : env.parseDidUrl did = .ok u)
    (h2 : u.path = none)
    (h3 : env.exec (.getNym u.id) = .ok reply)
    (h4 : env.jsonParse reply = some v)
    (h5 : (v.index "result").index "data" = .str ds)
    (h6 : env.decodeNym ds = some nym)
    (h7 : nym.diddoc_content = none)
    (hf : ∃ er, (fetch_legacy_endpoint env u.id (log ++ [.getNym u.id])).1 = .err er) :
    _resolve env did log =
      (.ok (.DidDocument (DidDocument.new u.nameSpace nym.dest nym.verkey none none),
            ⟨v, "NYM"⟩),
       log ++ [.getNym u.id, .getAttrib u.id LEGACY_INDY_SERVICE]) := by
  obtain ⟨er, hf⟩ := hf
  have hlog := fetch_legacy_endpoint_log env u.id (log ++ [.getNym u.id])
  rw [_resolve_nym env did u reply v ds nym log h1 h2 h3 h4 h5 h6]
  rcases hfl : fetch_legacy_endpoint env u.id (log ++ [.getNym u.id]) with ⟨o, l2⟩
  rw [hfl] at hf hlog
  simp only at hf hlog
  subst hf
  simp [h7, resultOk, hfl, hlog, attachMeta, h4]

theorem resolve_of_doc (env : Env) (did : String) (log : List PreparedRequest)
    (doc : DidDocument) (m : ContentMetadata) (l : List PreparedRequest)
    (h : _resolve env did log = (.ok (.DidDocument doc, m), l)) :
    resolve env did log = (.ok ⟨none, some doc.to_value, some m⟩, l) := by
  unfold resolve
  rw [h]

theorem dereference_of_doc (env : Env) (did : String) (log : List PreparedRequest)
    (doc : DidDocument) (m : ContentMetadata) (l : List PreparedRequest)
    (h : _resolve env did log = (.ok (.DidDocument doc, m), l)) :
    dereference env did log = (.ok ⟨none, none, some m⟩, l) := by
  unfold dereference
  rw [h]

theorem resolve_of_content (env : Env) (did : String) (log : List PreparedRequest)
    (c : Value) (m : ContentMetadata) (l : List PreparedRequest)
    (h : _resolve env did log = (.ok (.Content c, m), l)) :
    resolve env did log = (.ok ⟨none, none, some m⟩, l) := by
  unfold resolve
  rw [h]

theorem dereference_of_content (env : Env) (did : String) (log : List PreparedRequest)
    (c : Value) (m : ContentMetadata) (l : List PreparedRequest)
    (h : _resolve env did log = (.ok (.Content c, m), l)) :
    dereference env did log = (.ok ⟨none, some c, some m⟩, l) := by
  unfold dereference
  rw [h]

/-- A base environment for concrete instances: the RFC-3339 model, current time
1000, permissive identifier validators, everything else inert. -/
def baseEnv : Env where
  rfc3339 := rfc3339ToEpoch
  now := 1000
  jsonParse := fun _ => none
  decodeNym := fun _ => none
  decodeEndpoint := fun _ => none
  exec := fun _ => .error ()
  validCredDefId := fun _ => true
  validRevRegId := fun _ => true
  parseDidUrl := fun _ => .error .MalformedIdentifier

/-- C1: for every raw ledger reply string that parses as JSON,
`parse_ledger_data` returns the `EmptyData` error exactly when the nested
`result.data` field is JSON null, and otherwise returns exactly the extracted
`result.data` value — so a null `result.data` never yields a value for the
pipeline to turn into a document or content. -/
theorem parse_ledger_data_empty_data_iff (env : Env) (raw : String) (v : Value)
    (h : env.jsonParse raw = some v) :
    (parse_ledger_data env raw = .error .EmptyData ↔ (v.index "result").index "data" = .null)
    ∧ ((v.index "result").index "data" ≠ .null →
       parse_ledger_data env raw = .ok ((v.index "result").index "data")) := by
  unfold parse_ledger_data
  rw [h]
  cases hd : (v.index "result").index "data" <;> simp [Value.isNull, hd]

/-- The reply value used by the C1 witness: `result.data` is JSON null. -/
def vC1 : Value := .obj [("result", .obj [("data", .null)])]

/-- Environment for the C1 witness: one concrete reply parsing to `vC1`. -/
def envC1 : Env :=
  { baseEnv with jsonParse := fun s => if s = "reply" then some vC1 else none }

/-- Witness for C1 at a concrete reply whose `result.data` is null. -/
theorem parse_ledger_data_empty_data_iff_witness :
    envC1.jsonParse "reply" = some vC1
    ∧ ((parse_ledger_data envC1 "reply" = .error .EmptyData ↔
        (vC1.index "result").index "data" = .null)
       ∧ ((vC1.index "result").index "data" ≠ .null →
          parse_ledger_data envC1 "reply" = .ok ((vC1.index "result").index "data"))) :=
  ⟨rfl, parse_ledger_data_empty_data_iff envC1 "reply" vC1 rfl⟩

/-- The revocation-registry path object shared by the concrete delta and entry
instances (schema sequence number 104, claim definition `revocable`,
tag `a4e25e54`, as in the repository's tests). -/
def rrObj : RevRegObj := ⟨104, "revocable", "a4e25e54"⟩

/-- C4 counterexample input: a RevRegDelta DID URL whose `from` query value is
present but not RFC-3339. -/
def uC4 : DidUrl :=
  ⟨"idunion", "DK", some (.RevRegDelta rrObj),
   fun q => match q with | .From => some "garbage" | _ => none⟩

/-- C4 counterexample: with `from` present but unparseable, `build_request`
does not fail with the timestamp error — it succeeds and silently builds the
request with no lower bound (the claim predicted a `MalformedTimestamp`
failure). -/
theorem delta_malformed_from_no_error :
    build_request baseEnv uC4 = .ok (.getRevocRegDelta (revRegId "DK" rrObj) none 1000)
    ∧ (build_request baseEnv uC4).isErr = false :=
  ⟨rfl, rfl⟩

/-- C4 amended: a present but unparseable `from` on a RevRegDelta identifier is
silently treated as absent: translation succeeds (whenever `to` resolves) and
the request carries no lower bound; only `to` can raise the timestamp error. -/
theorem delta_malformed_from_treated_absent
    (env : Env) (u : DidUrl) (r : RevRegObj) (s : String) (t : Int)
    (h1 : u.path = some (.RevRegDelta r))
    (h2 : u.query .From = some s)
    (h3 : env.rfc3339 s = none)
    (h4 : parse_or_now env (u.query .To) = .ok t)
    (h5 : env.validRevRegId (revRegId u.id r) = true) :
    build_request env u = .ok (.getRevocRegDelta (revRegId u.id r) none t) := by
  unfold build_request
  rw [h1, h4]
  simp [h2, h3, h5]

/-- Witness for the amended C4 at the concrete unparseable `from`. -/
theorem delta_malformed_from_treated_absent_witness :
    baseEnv.rfc3339 "garbage" = none
    ∧ uC4.query .From = some "garbage"
    ∧ build_request baseEnv uC4 = .ok (.getRevocRegDelta (revRegId "DK" rrObj) none 1000) :=
  ⟨rfl, rfl,
   delta_malformed_from_treated_absent baseEnv uC4 rrObj "garbage" 1000 rfl rfl rfl rfl rfl⟩

/-- C5 counterexample environment: the external credential-definition
identifier validator rejects every composite string. -/
def envC5 : Env := { baseEnv with validCredDefId := fun _ => false }

/-- C5 counterexample input: a ClaimDef DID URL. -/
def uC5 : DidUrl := ⟨"idunion", "DK", some (.ClaimDef ⟨104, "npdb"⟩), fun _ => none⟩

/-- C5 counterexample: when the assembled composite claim-definition identifier
is rejected by the identifier's validation rules, `build_request` panics (the
source unwraps the rejection) instead of returning a failure value to the
caller, contrary to the claim. -/
theorem claim_def_rejection_panics_example :
    build_request envC5 uC5 = .panicked ∧ (build_request envC5 uC5).isErr = false :=
  ⟨rfl, rfl⟩

/-- C5 amended: for every ClaimDef identifier whose assembled composite string
is rejected by the identifier's validation rules, the pipeline panics at the
`unwrap` of the rejection — it does not return a translation error value. -/
theorem claim_def_rejection_panics
    (env : Env) (u : DidUrl) (c : ClaimDefObj)
    (h1 : u.path = some (.ClaimDef c))
    (h2 : env.validCredDefId (credDefId u.id c) = false) :
    build_request env u = .panicked := by
  unfold build_request
  rw [h1]
  simp [h2]

/-- Witness for the amended C5 at the concrete rejected composite. -/
theorem claim_def_rejection_panics_witness :
    envC5.validCredDefId (credDefId "DK" ⟨104, "npdb"⟩) = false
    ∧ build_request envC5 uC5 = .panicked :=
  ⟨rfl, claim_def_rejection_panics envC5 uC5 ⟨104, "npdb"⟩ rfl rfl⟩

/-- C7: on a RevRegEntry identifier, a present `versionTime` value failing
RFC-3339 parsing makes `build_request` fail with the timestamp error
(`DidIndyError::DateTimeError`, the spec's `MalformedTimestamp`), while an
absent `versionTime` is never an error: the request is built with the
timestamp defaulting to the current time. -/
theorem rev_reg_entry_version_time_policy
    (env : Env) (u : DidUrl) (r : RevRegObj) (s : String)
    (env2 : Env) (u2 : DidUrl) (r2 : RevRegObj)
    (h1 : u.path = some (.RevRegEntry r))
    (h2 : u.query .VersionTime = some s)
    (h3 : env.rfc3339 s = none)
    (g1 : u2.path = some (.RevRegEntry r2))
    (g2 : u2.query .VersionTime = none)
    (g3 : env2.validRevRegId (revRegId u2.id r2) = true) :
    build_request env u = .err .DateTimeError
    ∧ build_request env2 u2 = .ok (.getRevocReg (revRegId u2.id r2) env2.now) := by
  constructor
  · unfold build_request parse_or_now
    rw [h1]
    simp [h2, h3]
  · unfold build_request parse_or_now
    rw [g1]
    simp [g2, g3]

/-- C7 witness inputs: a RevRegEntry URL with an unparseable `versionTime`, and
one with no `versionTime`. -/
def uC7a : DidUrl :=
  ⟨"idunion", "DK", some (.RevRegEntry rrObj),
   fun q => match q with | .VersionTime => some "20201220T19:17:47Z" | _ => none⟩

/-- C7 witness input with `versionTime` absent. -/
def uC7b : DidUrl := ⟨"idunion", "DK", some (.RevRegEntry rrObj), fun _ => none⟩

/-- Witness for C7 at the concrete malformed and absent `versionTime`. -/
theorem rev_reg_entry_version_time_policy_witness :
    baseEnv.rfc3339 "20201220T19:17:47Z" = none
    ∧ uC7b.query .VersionTime = none
    ∧ (build_request baseEnv uC7a = .err .DateTimeError
       ∧ build_request baseEnv uC7b = .ok (.getRevocReg (revRegId "DK" rrObj) baseEnv.now)) :=
  ⟨rfl, rfl,
   rev_reg_entry_version_time_policy baseEnv uC7a rrObj "20201220T19:17:47Z"
     baseEnv uC7b rrObj rfl rfl rfl rfl rfl rfl⟩

/-- C8: on a well-formed RevRegEntry identifier with a present, parseable
`versionTime`, the translated request is a get-revoc-reg request whose
timestamp equals the RFC-3339 value's epoch seconds exactly, and its
transaction type is `GET_REVOC_REG`. -/
theorem rev_reg_entry_timestamp_exact
    (env : Env) (u : DidUrl) (r : RevRegObj) (s : String) (t : Int)
    (h1 : u.path = some (.RevRegEntry r))
    (h2 : u.query .VersionTime = some s)
    (h3 : env.rfc3339 s = some t)
    (h4 : env.validRevRegId (revRegId u.id r) = true) :
    build_request env u = .ok (.getRevocReg (revRegId u.id r) t)
    ∧ (PreparedRequest.getRevocReg (revRegId u.id r) t).txn_type = GET_REVOC_REG := by
  refine ⟨?_, rfl⟩
  unfold build_request parse_or_now
  rw [h1]
  simp [h2, h3, h4]

/-- C8 witness input: the repository test's `versionTime`
`2020-12-20T19:17:47Z`, whose epoch seconds are 1608491867. -/
def uC8 : DidUrl :=
  ⟨"idunion", "DK", some (.RevRegEntry rrObj),
   fun q => match q with | .VersionTime => some "2020-12-20T19:17:47Z" | _ => none⟩

/-- Witness for C8 at the concrete parseable `versionTime`. -/
theorem rev_reg_entry_timestamp_exact_witness :
    baseEnv.rfc3339 "2020-12-20T19:17:47Z" = some 1608491867
    ∧ (build_request baseEnv uC8 = .ok (.getRevocReg (revRegId "DK" rrObj) 1608491867)
       ∧ (PreparedRequest.getRevocReg (revRegId "DK" rrObj) 1608491867).txn_type
           = GET_REVOC_REG) :=
  ⟨rfl,
   rev_reg_entry_timestamp_exact baseEnv uC8 rrObj "2020-12-20T19:17:47Z" 1608491867
     rfl rfl rfl rfl⟩

/-- C9 counterexample input: a RevRegDelta DID URL with `from` omitted and a
`to` value lying in the past of the modelled current time (1000). -/
def uC9 : DidUrl :=
  ⟨"idunion", "DK", some (.RevRegDelta rrObj),
   fun q => match q with | .To => some "1970-01-01T00:00:10Z" | _ => none⟩

/-- C9 counterexample: with `from` omitted but a past `to` present, the
translated request's `to` equals the parsed value 10, which is smaller than the
current time taken before translation — the claimed `to ≥ now` fails. -/
theorem delta_past_to_below_now :
    build_request baseEnv uC9 = .ok (.getRevocRegDelta (revRegId "DK" rrObj) none 10)
    ∧ ¬((10 : Int) ≥ baseEnv.now) :=
  ⟨rfl, by decide⟩

/-- C9 amended: for every RevRegDelta identifier with both `from` and `to`
omitted, the translated request is a get-revoc-reg-delta request with no lower
bound whose `to` equals the current time taken before translation (so `to ≥
now` holds in exactly this defaulted case; a present parseable `to` is used
verbatim and may lie below now). -/
theorem delta_from_omitted_no_lower_bound
    (env : Env) (u : DidUrl) (r : RevRegObj)
    (h1 : u.path = some (.RevRegDelta r))
    (h2 : u.query .From = none)
    (h3 : u.query .To = none)
    (h4 : env.validRevRegId (revRegId u.id r) = true) :
    build_request env u = .ok (.getRevocRegDelta (revRegId u.id r) none env.now)
    ∧ (PreparedRequest.getRevocRegDelta (revRegId u.id r) none env.now).txn_type
        = GET_REVOC_REG_DELTA := by
  refine ⟨?_, rfl⟩
  unfold build_request parse_or_now
  rw [h1]
  simp [h2, h3, h4]

/-- C9 amended-claim witness input: a RevRegDelta URL with no query at all. -/
def uC9b : DidUrl := ⟨"idunion", "DK", some (.RevRegDelta rrObj), fun _ => none⟩

/-- Witness for the amended C9 with both `from` and `to` omitted. -/
theorem delta_from_omitted_no_lower_bound_witness :
    uC9b.query .From = none
    ∧ uC9b.query .To = none
    ∧ (build_request baseEnv uC9b
         = .ok (.getRevocRegDelta (revRegId "DK" rrObj) none baseEnv.now)
       ∧ (PreparedRequest.getRevocRegDelta (revRegId "DK" rrObj) none baseEnv.now).txn_type
           = GET_REVOC_REG_DELTA) :=
  ⟨rfl, rfl, delta_from_omitted_no_lower_bound baseEnv uC9b rrObj rfl rfl rfl rfl⟩

/-- The path-free DID URL used by the concrete NYM scenarios. -/
def nymUrl : DidUrl := ⟨"idunion", "DK", none, fun _ => none⟩

/-- Primary get-nym reply value: `result.data` is the JSON string "nymData". -/
def vNym : Value := .obj [("result", .obj [("data", .str "nymData")])]

/-- Legacy get-attribute reply value: `result.data` is the JSON string
"endpointData". -/
def vAttr : Value := .obj [("result", .obj [("data", .str "endpointData")])]

/-- Concrete NYM environment A: the NYM record lacks `diddoc_content` and the
legacy fetch succeeds end to end. -/
def envNymA : Env :=
  { baseEnv with
    parseDidUrl := fun s =>
      if s = "did:indy:idunion:DK" then .ok nymUrl else .error .MalformedIdentifier,
    exec := fun r =>
      match r with
      | .getNym "DK" => .ok "nymReply"
      | .getAttrib "DK" _ => .ok "attribReply"
      | _ => .error (),
    jsonParse := fun s =>
      if s = "nymReply" then some vNym
      else if s = "attribReply" then some vAttr
      else none,
    decodeNym := fun s => if s = "nymData" then some ⟨"DK", "VK", none⟩ else none,
    decodeEndpoint := fun s =>
      if s = "endpointData" then some ⟨.str "https://agent.example"⟩ else none }

/-- Concrete NYM environment B: as A, but the NYM record carries
`diddoc_content`, so no legacy fetch happens. -/
def envNymB : Env :=
  { envNymA with
    decodeNym := fun s => if s = "nymData" then some ⟨"DK", "VK", some (.obj [])⟩ else none }

/-- C2: on a resolve or dereference whose primary request is get-nym, a decoded
NYM record lacking `diddoc_content` triggers exactly one additional
execution-service call, the get-attribute legacy-endpoint fetch (the call log
is the get-nym and then the get-attribute request); a record carrying
`diddoc_content` triggers zero additional calls (the log is the get-nym
request alone). -/
theorem nym_legacy_fetch_call_counts
    (env : Env) (did : String) (u : DidUrl) (reply : String) (v : Value)
    (ds : String) (nym : GetNymResultV1)
    (env2 : Env) (did2 : String) (u2 : DidUrl) (reply2 : String) (v2 : Value)
    (ds2 : String) (nym2 : GetNymResultV1) (c : Value)
    (h1 : env.parseDidUrl did = .ok u) (h2 : u.path = none)
    (h3 : env.exec (.getNym u.id) = .ok reply) (h4 : env.jsonParse reply = some v)
    (h5 : (v.index "result").index "data" = .str ds) (h6 : env.decodeNym ds = some nym)
    (h7 : nym.diddoc_content = none)
    (g1 : env2.parseDidUrl did2 = .ok u2) (g2 : u2.path = none)
    (g3 : env2.exec (.getNym u2.id) = .ok reply2) (g4 : env2.jsonParse reply2 = some v2)
    (g5 : (v2.index "result").index "data" = .str ds2) (g6 : env2.decodeNym ds2 = some nym2)
    (g7 : nym2.diddoc_content = some c) :
    ((resolve env did []).2 = [.getNym u.id, .getAttrib u.id LEGACY_INDY_SERVICE]
     ∧ (dereference env did []).2 = [.getNym u.id, .getAttrib u.id LEGACY_INDY_SERVICE])
    ∧ ((resolve env2 did2 []).2 = [.getNym u2.id]
       ∧ (dereference env2 did2 []).2 = [.getNym u2.id]) := by
  have hA := _resolve_nym_absent_log env did u reply v ds nym [] h1 h2 h3 h4 h5 h6 h7
  have hB := _resolve_nym_present env2 did2 u2 reply2 v2 ds2 nym2 c [] g1 g2 g3 g4 g5 g6 g7
  refine ⟨⟨?_, ?_⟩, ?_, ?_⟩
  · rw [resolve_snd, hA]; rfl
  · rw [dereference_snd, hA]; rfl
  · rw [resolve_snd, hB]; rfl
  · rw [dereference_snd, hB]; rfl

/-- Witness for C2 on the concrete NYM environments A (no `diddoc_content`,
one extra get-attribute call) and B (`diddoc_content` present, no extra
call). -/
theorem nym_legacy_fetch_call_counts_witness :
    (⟨"DK", "VK", none⟩ : GetNymResultV1).diddoc_content = none
    ∧ (⟨"DK", "VK", some (.obj [])⟩ : GetNymResultV1).diddoc_content = some (.obj [])
    ∧ (((resolve envNymA "did:indy:idunion:DK" []).2
          = [.getNym "DK", .getAttrib "DK" LEGACY_INDY_SERVICE]
        ∧ (dereference envNymA "did:indy:idunion:DK" []).2
          = [.getNym "DK", .getAttrib "DK" LEGACY_INDY_SERVICE])
       ∧ ((resolve envNymB "did:indy:idunion:DK" []).2 = [.getNym "DK"]
          ∧ (dereference envNymB "did:indy:idunion:DK" []).2 = [.getNym "DK"])) :=
  ⟨rfl, rfl,
   nym_legacy_fetch_call_counts envNymA "did:indy:idunion:DK" nymUrl "nymReply" vNym
     "nymData" ⟨"DK", "VK", none⟩ envNymB "did:indy:idunion:DK" nymUrl "nymReply" vNym
     "nymData" ⟨"DK", "VK", some (.obj [])⟩ (.obj [])
     rfl rfl rfl rfl rfl rfl rfl rfl rfl rfl rfl rfl rfl rfl⟩

/-- C3 counterexample environment: the legacy get-attribute reply's
`result.data` is a JSON number — a payload whose shape the endpoint decode
cannot accept. -/
def envC3 : Env :=
  { envNymA with
    jsonParse := fun s =>
      if s = "nymReply" then some vNym
      else if s = "attribReply" then some (.obj [("result", .obj [("data", .num 5)])])
      else none }

/-- C3 counterexample: when the legacy-endpoint payload is a non-string JSON
value (a decode-shape failure of the endpoint payload), the fallback is not
swallowed — `as_str().unwrap()` panics and the overall resolve and dereference
calls do not succeed. -/
theorem legacy_fetch_nonstring_payload_panics :
    (resolve envC3 "did:indy:idunion:DK" []).1 = .panicked
    ∧ (dereference envC3 "did:indy:idunion:DK" []).1 = .panicked :=
  ⟨rfl, rfl⟩

/-- C3 amended: on a get-nym resolution whose NYM record lacks
`diddoc_content`, every legacy-endpoint fetch failure that is returned as an
error value — transport failure, a reply that is not JSON, empty data, or a
JSON-string payload failing endpoint decode — is swallowed and treated as "no
endpoint": resolve and dereference still succeed and the document carries no
service endpoint.  (A non-string endpoint payload instead panics; see the
counterexample.) -/
theorem legacy_fetch_error_swallowed
    (env : Env) (did : String) (u : DidUrl) (reply : String) (v : Value)
    (ds : String) (nym : GetNymResultV1)
    (h1 : env.parseDidUrl did = .ok u) (h2 : u.path = none)
    (h3 : env.exec (.getNym u.id) = .ok reply) (h4 : env.jsonParse reply = some v)
    (h5 : (v.index "result").index "data" = .str ds) (h6 : env.decodeNym ds = some nym)
    (h7 : nym.diddoc_content = none)
    (hD : env.exec (.getAttrib u.id LEGACY_INDY_SERVICE) = .error ()
        ∨ (∃ r2, env.exec (.getAttrib u.id LEGACY_INDY_SERVICE) = .ok r2
            ∧ env.jsonParse r2 = none)
        ∨ (∃ r2 v2, env.exec (.getAttrib u.id LEGACY_INDY_SERVICE) = .ok r2
            ∧ env.jsonParse r2 = some v2 ∧ (v2.index "result").index "data" = .null)
        ∨ (∃ r2 v2 es, env.exec (.getAttrib u.id LEGACY_INDY_SERVICE) = .ok r2
            ∧ env.jsonParse r2 = some v2 ∧ (v2.index "result").index "data" = .str es
            ∧ env.decodeEndpoint es = none)) :
    resolve env did [] =
      (.ok ⟨none, some (DidDocument.new u.nameSpace nym.dest nym.verkey none none).to_value,
            some ⟨v, "NYM"⟩⟩,
       [.getNym u.id, .getAttrib u.id LEGACY_INDY_SERVICE])
    ∧ dereference env did [] =
      (.ok ⟨none, none, some ⟨v, "NYM"⟩⟩,
       [.getNym u.id, .getAttrib u.id LEGACY_INDY_SERVICE]) := by
  have hferr := fetch_legacy_endpoint_err env u.id ([] ++ [.getNym u.id]) hD
  have hres := _resolve_nym_absent_fetch_err env did u reply v ds nym []
    h1 h2 h3 h4 h5 h6 h7 hferr
  simp only [List.nil_append] at hres
  exact ⟨resolve_of_doc env did [] _ _ _ hres, dereference_of_doc env did [] _ _ _ hres⟩

/-- C3 amended-claim witness environment: the endpoint payload is a JSON
string but its typed decode fails. -/
def envC3w : Env := { envNymA with decodeEndpoint := fun _ => none }

/-- Witness for the amended C3: the string payload "endpointData" fails
endpoint decode, the failure is swallowed, and both calls succeed without a
service endpoint. -/
theorem legacy_fetch_error_swallowed_witness :
    envC3w.decodeEndpoint "endpointData" = none
    ∧ (resolve envC3w "did:indy:idunion:DK" [] =
         (.ok ⟨none, some (DidDocument.new "idunion" "DK" "VK" none none).to_value,
               some ⟨vNym, "NYM"⟩⟩,
          [.getNym "DK", .getAttrib "DK" LEGACY_INDY_SERVICE])
       ∧ dereference envC3w "did:indy:idunion:DK" [] =
         (.ok ⟨none, none, some ⟨vNym, "NYM"⟩⟩,
          [.getNym "DK", .getAttrib "DK" LEGACY_INDY_SERVICE])) :=
  ⟨rfl,
   legacy_fetch_error_swallowed envC3w "did:indy:idunion:DK" nymUrl "nymReply" vNym
     "nymData" ⟨"DK", "VK", none⟩ rfl rfl rfl rfl rfl rfl rfl
     (Or.inr (Or.inr (Or.inr ⟨"attribReply", vAttr, "endpointData", rfl, rfl, rfl, rfl⟩)))⟩

/-- C6 input: a RevRegEntry DID URL with no query, whose primary request is a
get-revoc-reg ("116") — a transaction type matched by none of the five
dispatch arms. -/
def uC6 : DidUrl := ⟨"idunion", "DK", some (.RevRegEntry rrObj), fun _ => none⟩

/-- C6 reply value: `result.data` is the number 7. -/
def vRR : Value := .obj [("result", .obj [("data", .num 7)])]

/-- C6 environment: a successful get-revoc-reg round trip. -/
def envC6 : Env :=
  { baseEnv with
    parseDidUrl := fun s =>
      if s = "did:indy:idunion:DK/anoncreds/v0/REV_REG_ENTRY/104/revocable/a4e25e54"
      then .ok uC6 else .error .MalformedIdentifier,
    exec := fun r =>
      match r with
      | .getRevocReg _ _ => .ok "rrReply"
      | _ => .error (),
    jsonParse := fun s => if s = "rrReply" then some vRR else none }

/-- C6 at the failing input: a successful resolution whose primary transaction
type is none of the five dispatched types passes the payload through unchanged
but tags it with the misspelled string "UNKOWN", not "UNKNOWN" as the spec
states. -/
theorem unknown_txn_tag_misspelled :
    (_resolve envC6 "did:indy:idunion:DK/anoncreds/v0/REV_REG_ENTRY/104/revocable/a4e25e54" []).1
      = .ok (.Content (.num 7), ⟨vRR, "UNKOWN"⟩)
    ∧ "UNKOWN" ≠ "UNKNOWN" :=
  ⟨rfl, by decide⟩

/-- C10: when the shared pipeline succeeds with a kind mismatching the entry
point, the public operation still succeeds with a null payload field:
dereference of a pipeline outcome that is a DID document yields a successful
envelope with `contentStream` null, and resolve of a pipeline outcome that is
opaque content yields a successful envelope with `didDocument` null; in both
cases the metadata object is populated. -/
theorem kind_mismatch_null_payload
    (env : Env) (did : String) (doc : DidDocument) (m : ContentMetadata)
    (l : List PreparedRequest)
    (env2 : Env) (did2 : String) (c : Value) (m2 : ContentMetadata)
    (l2 : List PreparedRequest)
    (h : _resolve env did [] = (.ok (.DidDocument doc, m), l))
    (g : _resolve env2 did2 [] = (.ok (.Content c, m2), l2)) :
    dereference env did [] = (.ok ⟨none, none, some m⟩, l)
    ∧ resolve env2 did2 [] = (.ok ⟨none, none, some m2⟩, l2) :=
  ⟨dereference_of_doc env did [] doc m l h, resolve_of_content env2 did2 [] c m2 l2 g⟩

/-- C10 witness input: a Schema DID URL whose pipeline yields opaque content. -/
def schemaUrl : DidUrl := ⟨"idunion", "DK", some (.Schema ⟨"npdb", "1.0"⟩), fun _ => none⟩

/-- C10 witness environment for the content case: a successful get-schema
round trip. -/
def envSchema : Env :=
  { baseEnv with
    parseDidUrl := fun s =>
      if s = "did:indy:idunion:DK/anoncreds/v0/SCHEMA/npdb/1.0"
      then .ok schemaUrl else .error .MalformedIdentifier,
    exec := fun r =>
      match r with
      | .getSchema _ _ _ => .ok "schReply"
      | _ => .error (),
    jsonParse := fun s => if s = "schReply" then some vRR else none }

/-- The concrete document produced by the C10 document-case pipeline. -/
def docA : DidDocument := ⟨"idunion", "DK", "VK", some ⟨.str "https://agent.example"⟩, none⟩

/-- Witness for C10: a get-nym pipeline outcome dereferenced (null
`contentStream`) and a schema pipeline outcome resolved (null
`didDocument`). -/
theorem kind_mismatch_null_payload_witness :
    _resolve envNymA "did:indy:idunion:DK" []
      = (.ok (.DidDocument docA, ⟨vNym, "NYM"⟩),
         [.getNym "DK", .getAttrib "DK" LEGACY_INDY_SERVICE])
    ∧ (dereference envNymA "did:indy:idunion:DK" []
         = (.ok ⟨none, none, some ⟨vNym, "NYM"⟩⟩,
            [.getNym "DK", .getAttrib "DK" LEGACY_INDY_SERVICE])
       ∧ resolve envSchema "did:indy:idunion:DK/anoncreds/v0/SCHEMA/npdb/1.0" []
         = (.ok ⟨none, none, some ⟨vRR, "SCHEMA"⟩⟩, [.getSchema "DK" "npdb" "1.0"])) :=
  ⟨rfl,
   kind_mismatch_null_payload envNymA "did:indy:idunion:DK" docA ⟨vNym, "NYM"⟩
     [.getNym "DK", .getAttrib "DK" LEGACY_INDY_SERVICE]
     envSchema "did:indy:idunion:DK/anoncreds/v0/SCHEMA/npdb/1.0" (.num 7) ⟨vRR, "SCHEMA"⟩
     [.getSchema "DK" "npdb" "1.0"] rfl rfl⟩

end IndyDid
